import Mathlib

/-!
Shallow embedding of the homework-status Telegram bot
(source files: homework.py, exception.py).

Python dictionaries that occur in the program are JSON-decoded API
bodies, so they are modelled as association lists with string keys and
PyVal values.  Machine effects are made explicit:

* the outcome of each outbound network call (the Yandex API request,
  the Telegram probe, each bot.send_message call) is an input supplied
  by the environment of the cycle;
* logging and message sending are recorded as an event list;
* every Python exception that the program raises or catches is a
  constructor of the Exc type carrying its message string, exactly as
  built by the corresponding raise statement.

Key lookups model Python mapping access: for a value that is not a
dict the lookup is absent.  (In the program every lookup is guarded by
an isinstance or membership check, except the record handed to
parse_status, whose claims below are stated for mapping records.)
-/

/-- Values of the decoded JSON bodies handled by the program. -/
inductive PyVal where
  | str (s : String)
  | int (n : Int)
  | bool (b : Bool)
  | list (xs : List PyVal)
  | dict (kvs : List (String × PyVal))
  | nil

mutual

/-- Python repr of a value, as interpolated into f-strings via str()
for non-string values. -/
def pyRepr : PyVal → String
  | .str s => "\x27" ++ s ++ "\x27"
  | .int n => toString n
  | .bool b => if b then "True" else "False"
  | .list xs => "[" ++ pyReprList xs ++ "]"
  | .dict kvs => "\x7b" ++ pyReprDict kvs ++ "\x7d"
  | .nil => "None"

/-- Comma-separated reprs of the elements of a list. -/
def pyReprList : List PyVal → String
  | [] => ""
  | [x] => pyRepr x
  | x :: y :: xs => pyRepr x ++ ", " ++ pyReprList (y :: xs)

/-- Comma-separated reprs of the entries of a dict. -/
def pyReprDict : List (String × PyVal) → String
  | [] => ""
  | [(k, v)] => "\x27" ++ k ++ "\x27: " ++ pyRepr v
  | (k, v) :: e :: kvs =>
      "\x27" ++ k ++ "\x27: " ++ pyRepr v ++ ", " ++ pyReprDict (e :: kvs)

end

/-- Python str() of a value, as interpolated into f-strings. -/
def pyStr : PyVal → String
  | .str s => s
  | v => pyRepr v

/-- Mapping lookup: some value for a dict that has the key, none
otherwise. -/
def PyVal.getKey? (v : PyVal) (k : String) : Option PyVal :=
  match v with
  | .dict kvs => (kvs.find? (fun kv => kv.1 == k)).map Prod.snd
  | _ => Option.none

/-- Python `k in v` for a mapping. -/
def PyVal.hasKey (v : PyVal) (k : String) : Bool :=
  (v.getKey? k).isSome

/-- Python isinstance(v, dict). -/
def PyVal.isDict : PyVal → Bool
  | .dict _ => true
  | _ => false

/-- Python isinstance(v, list). -/
def PyVal.isList : PyVal → Bool
  | .list _ => true
  | _ => false

/-- The exceptions of exception.py (plus TypeError), each carrying the
message string its raise statement builds; str(e) of a no-argument
exception is the empty string. -/
inductive Exc where
  | NoEnvValueException (m : String)
  | WrongTokenException (m : String)
  | GeneralProgramException (m : String)
  | UnexpectedAPIAnswerException (m : String)
  | UnexpectedAPIAnswerStatusException (m : String)
  | WrongHomeworkStatusException (m : String)
  | DoesntSendMessagesException (m : String)
  | WrongHomeworkStructureException (m : String)
  | RequestFailedException (m : String)
  | EndpointReachingException (m : String)
  | EmptyHomeworkException
  | TypeError (m : String)

/-- Python str(error): the single string argument of the exception. -/
def strExc : Exc → String
  | .NoEnvValueException m => m
  | .WrongTokenException m => m
  | .GeneralProgramException m => m
  | .UnexpectedAPIAnswerException m => m
  | .UnexpectedAPIAnswerStatusException m => m
  | .WrongHomeworkStatusException m => m
  | .DoesntSendMessagesException m => m
  | .WrongHomeworkStructureException m => m
  | .RequestFailedException m => m
  | .EndpointReachingException m => m
  | .EmptyHomeworkException => ""
  | .TypeError m => m

/-- Membership of the except tuple at lines 227 to 234 of main. -/
def isRecoverableClass : Exc → Bool
  | .UnexpectedAPIAnswerException _ => true
  | .UnexpectedAPIAnswerStatusException _ => true
  | .WrongHomeworkStatusException _ => true
  | .WrongHomeworkStructureException _ => true
  | .RequestFailedException _ => true
  | .EndpointReachingException _ => true
  | .TypeError _ => true
  | _ => false

/-- Membership of the except clause at line 239 of main. -/
def isEmptyHomeworkClass : Exc → Bool
  | .EmptyHomeworkException => true
  | _ => false

/-- Module constant ENDPOINT of homework.py. -/
def ENDPOINT : String :=
  "https://practicum.yandex.ru/api/user_api/homework_statuses/"

/-- Module constant RETRY_PERIOD of homework.py. -/
def RETRY_PERIOD : Nat := 600

/-- Module constant HOMEWORK_VERDICTS of homework.py (the VerdictTable). -/
def HOMEWORK_VERDICTS : List (String × String) :=
  [("approved", "Работа проверена: ревьюеру всё понравилось. Ура!"),
   ("reviewing", "Работа взята на проверку ревьюером."),
   ("rejected", "Работа проверена: у ревьюера есть замечания.")]

/-- Python `status in HOMEWORK_VERDICTS` followed by the dict lookup:
only a string equal to one of the keys is a member. -/
def verdictLookup : PyVal → Option String
  | .str s => (HOMEWORK_VERDICTS.find? (fun kv => kv.1 == s)).map Prod.snd
  | _ => Option.none

/-- The three environment credentials read at module load. -/
structure Env where
  practicumToken : Option String
  telegramToken : Option String
  telegramChatId : Option String

/-- Python falsiness of an optional string: None or the empty string. -/
def falsy : Option String → Bool
  | Option.none => true
  | Option.some s => s.isEmpty

/-- Outcome of the requests.get probe inside check_tokens, supplied by
the environment. -/
inductive ProbeOutcome where
  | requestException (err : String)
  | status (code : Nat)

/-- Function check_tokens of homework.py. -/
def check_tokens (env : Env) (probe : ProbeOutcome) : Except Exc Unit :=
  if falsy env.practicumToken then
    .error (.NoEnvValueException "PRACTICUM_TOKEN has not been found in env")
  else if falsy env.telegramToken then
    .error (.NoEnvValueException "TELEGRAM_TOKEN has not been found in env")
  else if falsy env.telegramChatId then
    .error (.NoEnvValueException "TELEGRAM_CHAT_ID has not been found in env")
  else
    match probe with
    | .requestException err =>
        .error (.RequestFailedException
          ("Something went wrong with Telegram API request: " ++ err))
    | .status code =>
        if code == 401 then
          .error (.WrongTokenException "TELEGRAM_TOKEN is wrong")
        else .ok ()

/-- How main terminates before the loop, if it does. -/
inductive StartupResult where
  | exitGracefully
  | propagate (e : Exc)
  | enterLoop

/-- Kinds of bot.send_message call sites: the status-change
notification at line 223 and the error notification at line 200. -/
inductive SendKind where
  | statusChange
  | errorNotification

/-- Observable events of a run: outbound bot messages and log lines. -/
inductive Event where
  | botSend (kind : SendKind) (message : String)
  | logDebug (m : String)
  | logError (m : String)
  | logCritical (m : String)

/-- Lines 203 to 212 of main: the precheck and its except clause.
Returns the startup result together with the emitted log events. -/
def mainStartup (env : Env) (probe : ProbeOutcome) :
    StartupResult × List Event :=
  match check_tokens env probe with
  | .ok _ => (.enterLoop, [])
  | .error e =>
    match e with
    | .NoEnvValueException m => (.exitGracefully, [.logCritical m])
    | .WrongTokenException m => (.exitGracefully, [.logCritical m])
    | e => (.propagate e, [])

/-- The debug log line of a successful send_message call. -/
def sentOkLog (chatId message : String) : String :=
  "Bot has sent a message: \x22" ++ message ++
    "\x22 in telegram chat #" ++ chatId

/-- The message of the DoesntSendMessagesException raised by
send_message. -/
def sendFailureMsg (chatId message err : String) : String :=
  "Bot has not sent a message: \x22" ++ message.take 20 ++
    "...\x22 in telegram chat #" ++ chatId ++ ". Error: " ++ err

/-- Function send_message of homework.py.  The outcome of the inner
bot.send_message call is an environment input: none means it returned,
some err means it raised an exception whose str() is err. -/
def send_message (chatId : String) (kind : SendKind) (message : String)
    (outcome : Option String) : Except Exc Unit × List Event :=
  match outcome with
  | Option.none =>
      (.ok (), [.botSend kind message, .logDebug (sentOkLog chatId message)])
  | Option.some err =>
      (.error (.DoesntSendMessagesException (sendFailureMsg chatId message err)),
       [.botSend kind message, .logError err])

/-- Outcome of the requests.get call inside get_api_answer, supplied
by the environment: a raised RequestException, or a response with a
status code and a body that decodes (ok) or raises JSONDecodeError. -/
inductive HttpOutcome where
  | requestException (err : String)
  | response (statusCode : Nat) (body : Except String PyVal)

/-- Function get_api_answer of homework.py.  The
UnexpectedAPIAnswerStatusException raised inside the try block is not
a requests.RequestException nor a JSONDecodeError, so it propagates. -/
def get_api_answer (timestamp : Int) (http : HttpOutcome) :
    Except Exc PyVal :=
  match http with
  | .requestException err =>
      .error (.RequestFailedException
        ("Something went wrong with Yandex API request: " ++ err))
  | .response statusCode body =>
      if statusCode != 200 then
        .error (.UnexpectedAPIAnswerStatusException
          ("An API answer status code does not equal 200. Status code: " ++
           toString statusCode))
      else
        match body with
        | .error err =>
            .error (.EndpointReachingException
              ("Endpoint: \x22" ++ ENDPOINT ++
               "\x22 could not be reached. Error: " ++ err))
        | .ok v => .ok v

/-- The raise sites of check_response, one constructor per site, in
source order. -/
inductive CheckFailure where
  | notDict
  | remoteCode (code : PyVal) (response : PyVal)
  | noHomeworks (response : PyVal)
  | noCurrentDate (response : PyVal)
  | homeworksNotList
  | emptyHomeworks

/-- The exception each check_response raise site builds (lines 143 to
166); the notDict and homeworksNotList sites share one message text. -/
def CheckFailure.toExc : CheckFailure → Exc
  | .notDict =>
      .TypeError ("Yandex API answer value under homeworks key is not a list " ++
        "or answer value is not a dict")
  | .remoteCode code _ =>
      .UnexpectedAPIAnswerException
        ("Unexpected yandex API answer. Code: \x22" ++ pyStr code ++ "\x22")
  | .noHomeworks r =>
      .UnexpectedAPIAnswerException
        ("Unexpected yandex API answer. No homeworks key: " ++ pyStr r)
  | .noCurrentDate r =>
      .UnexpectedAPIAnswerException
        ("Unexpected yandex API answer. No current_date key: " ++ pyStr r)
  | .homeworksNotList =>
      .TypeError ("Yandex API answer value under homeworks key is not a list " ++
        "or answer value is not a dict")
  | .emptyHomeworks => .EmptyHomeworkException

/-- The spec word UnexpectedShape names the shape checks of the
validator (spec 4.3 cases 2 to 5), as opposed to the error-code case
it names RemoteError (case 1) and the empty-homeworks case. -/
def CheckFailure.isUnexpectedShape : CheckFailure → Bool
  | .notDict => true
  | .noHomeworks _ => true
  | .noCurrentDate _ => true
  | .homeworksNotList => true
  | _ => false

/-- Function check_response of homework.py. -/
def check_response (response : PyVal) : Except CheckFailure Unit :=
  if !response.isDict then .error .notDict
  else
    match response.getKey? "code" with
    | Option.some code => .error (.remoteCode code response)
    | Option.none =>
      if !response.hasKey "homeworks" then .error (.noHomeworks response)
      else if !response.hasKey "current_date" then
        .error (.noCurrentDate response)
      else
        match response.getKey? "homeworks" with
        | Option.some (.list []) => .error .emptyHomeworks
        | Option.some (.list (_ :: _)) => .ok ()
        | _ => .error .homeworksNotList

/-- The raise sites of parse_status, one constructor per site. -/
inductive ParseFailure where
  | noHomeworkName (homework : PyVal)
  | noStatus (homework : PyVal)
  | unknownStatus (status : PyVal)

/-- The exception each parse_status raise site builds (lines 171 to 183). -/
def ParseFailure.toExc : ParseFailure → Exc
  | .noHomeworkName hw =>
      .WrongHomeworkStructureException
        ("No \x22homework_name\x22 in homework: \x22" ++ pyStr hw ++ "\x22")
  | .noStatus hw =>
      .WrongHomeworkStructureException
        ("No \x22status\x22 in homework: \x22" ++ pyStr hw ++ "\x22")
  | .unknownStatus s =>
      .WrongHomeworkStatusException
        ("Unknown homework status: \x22" ++ pyStr s ++ "\x22")

/-- Function parse_status of homework.py. -/
def parse_status (homework : PyVal) : Except ParseFailure String :=
  match homework.getKey? "homework_name" with
  | Option.none => .error (.noHomeworkName homework)
  | Option.some homework_name =>
    match homework.getKey? "status" with
    | Option.none => .error (.noStatus homework)
    | Option.some status =>
      match verdictLookup status with
      | Option.none => .error (.unknownStatus status)
      | Option.some verdict =>
          .ok ("Изменился статус проверки работы \x22" ++
               pyStr homework_name ++ "\x22. " ++ verdict)

/-- Expression response[\x22homeworks\x22][0] of main, evaluated only
after check_response succeeded, which guarantees a non-empty list. -/
def firstHomework (response : PyVal) : PyVal :=
  match response.getKey? "homeworks" with
  | Option.some (.list (h :: _)) => h
  | _ => PyVal.nil

/-- Function add_in_error_list_and_send of homework.py.  Returns the
new error list, the events of the call, and the exception raised by
send_message if it failed (which then propagates to the caller). -/
def add_in_error_list_and_send (chatId : String) (error : Exc)
    (error_list : List String) (sendOutcome : Option String) :
    List String × List Event × Option Exc :=
  let str_error := strExc error
  if str_error ∈ error_list then (error_list, [], Option.none)
  else
    match send_message chatId .errorNotification str_error sendOutcome with
    | (.ok _, evs) => (error_list ++ [str_error], evs, Option.none)
    | (.error e, evs) => (error_list ++ [str_error], evs, Option.some e)

/-- State of the while loop of main: the polling cursor and the error
registry. -/
structure LoopState where
  timestamp : Int
  error_list : List String

/-- Environment inputs consumed by one cycle of the loop: the outcome
of the API request, the outcomes of the two possible bot.send_message
calls, and the value of int(time.time()) at line 225. -/
structure CycleEnv where
  http : HttpOutcome
  sendOutcome : Option String
  errSendOutcome : Option String
  now : Int

/-- How a cycle ends: the loop continues with a new state, or an
exception propagates out of the while loop. -/
inductive CycleOutcome where
  | next (st : LoopState)
  | raised (e : Exc)

/-- True when the cycle ended with an exception escaping the loop. -/
def CycleOutcome.isRaised : CycleOutcome → Bool
  | .raised _ => true
  | _ => false

/-- True when the cycle raised GeneralProgramException out of the loop. -/
def raisedGeneralProgram : CycleOutcome → Bool
  | .raised (.GeneralProgramException _) => true
  | _ => false

/-- True when the cycle raised DoesntSendMessagesException out of the
loop. -/
def raisedDeliveryFailure : CycleOutcome → Bool
  | .raised (.DoesntSendMessagesException _) => true
  | _ => false

/-- The f-string of lines 243 and 244 of main. -/
def strFatal (e : Exc) : String :=
  "Сбой в работе программы: " ++ strExc e

/-- The except clauses of the while loop (lines 227 to 244): the
recoverable tuple, the EmptyHomeworkException clause, and the
catch-all that raises GeneralProgramException.  An exception raised by
send_message inside add_in_error_list_and_send propagates out of the
loop unwrapped. -/
def dispatchExc (chatId : String) (st : LoopState) (env : CycleEnv)
    (e : Exc) : CycleOutcome × List Event :=
  if isRecoverableClass e then
    match add_in_error_list_and_send chatId e st.error_list env.errSendOutcome with
    | (list2, evs, Option.none) =>
        (.next ⟨st.timestamp, list2⟩, .logError (strExc e) :: evs)
    | (_, evs, Option.some e2) =>
        (.raised e2, .logError (strExc e) :: evs)
  else if isEmptyHomeworkClass e then
    (.next st, [.logDebug "No updates"])
  else
    (.raised (.GeneralProgramException (strFatal e)),
     [.logCritical (strFatal e)])

/-- One iteration of the while loop of main (lines 218 to 247). -/
def cycle (chatId : String) (st : LoopState) (env : CycleEnv) :
    CycleOutcome × List Event :=
  match get_api_answer st.timestamp env.http with
  | .error e => dispatchExc chatId st env e
  | .ok response =>
    match check_response response with
    | .error cf => dispatchExc chatId st env cf.toExc
    | .ok _ =>
      match parse_status (firstHomework response) with
      | .error pf => dispatchExc chatId st env pf.toExc
      | .ok message =>
        match send_message chatId .statusChange message env.sendOutcome with
        | (.ok _, evs) => (.next ⟨env.now + 1, []⟩, evs)
        | (.error e, evs) =>
            ((dispatchExc chatId st env e).1,
             evs ++ (dispatchExc chatId st env e).2)

/-- A cycle is fully successful when fetch, validation, translation
and the status notification all succeed (line 225 is reached). -/
def cycleFullySuccessful (st : LoopState) (env : CycleEnv) : Bool :=
  match get_api_answer st.timestamp env.http with
  | .error _ => false
  | .ok response =>
    match check_response response with
    | .error _ => false
    | .ok _ =>
      match parse_status (firstHomework response) with
      | .error _ => false
      | .ok _ => env.sendOutcome.isNone

/-- Cursor values after each completed cycle of a run, stopping when
an exception escapes the loop. -/
def traceTimestamps (chatId : String) : LoopState → List CycleEnv → List Int
  | _, [] => []
  | st, env :: envs =>
    match cycle chatId st env with
    | (.next st2, _) => st2.timestamp :: traceTimestamps chatId st2 envs
    | (.raised _, _) => []

/-- Messages of the error-notification send attempts among a list of
events. -/
def errorSendsOfEvents (evs : List Event) : List String :=
  evs.filterMap (fun ev =>
    match ev with
    | .botSend .errorNotification m => Option.some m
    | _ => Option.none)

/-- Error-notification send attempts of a whole run, in order. -/
def traceErrorSends (chatId : String) : LoopState → List CycleEnv → List String
  | _, [] => []
  | st, env :: envs =>
    match cycle chatId st env with
    | (.next st2, evs) => errorSendsOfEvents evs ++ traceErrorSends chatId st2 envs
    | (.raised _, evs) => errorSendsOfEvents evs

/-- No cycle executed during the run is fully successful: the run is
part of one failure streak. -/
def NoSuccessRun (chatId : String) : LoopState → List CycleEnv → Bool
  | _, [] => true
  | st, env :: envs =>
    !cycleFullySuccessful st env &&
    (match cycle chatId st env with
     | (.next st2, _) => NoSuccessRun chatId st2 envs
     | (.raised _, _) => true)

/-- The clock readings consumed by the cycles never go backwards,
starting from the given instant. -/
def ClockRuns : Int → List CycleEnv → Bool
  | _, [] => true
  | t, env :: envs => decide (t ≤ env.now) && ClockRuns env.now envs

/-- The given value is a lower bound of the list and the list is
sorted in non-decreasing order. -/
def Nondecreasing : Int → List Int → Prop
  | _, [] => True
  | t, x :: xs => t ≤ x ∧ Nondecreasing x xs

/-- A well-formed API body with one approved homework. -/
def goodBody : PyVal :=
  .dict [("homeworks", .list [.dict [("homework_name", .str "hw1"),
                                     ("status", .str "approved")]]),
         ("current_date", .int 1700000000)]

/-- A well-formed API body with an empty homeworks list. -/
def emptyBody : PyVal :=
  .dict [("homeworks", .list []), ("current_date", .int 1700000000)]

/-- A body carrying only an error code, as in the spec scenario. -/
def codeBody : PyVal := .dict [("code", .str "not_authenticated")]

/-- A cycle environment where everything succeeds. -/
def succEnv : CycleEnv :=
  ⟨.response 200 (.ok goodBody), Option.none, Option.none, 100⟩

/-- A cycle environment where the status notification send fails. -/
def failSendEnv : CycleEnv :=
  ⟨.response 200 (.ok goodBody), Option.some "boom", Option.none, 100⟩

/-- A cycle environment where the API request raises. -/
def transportEnv : CycleEnv :=
  ⟨.requestException "boom", Option.none, Option.none, 50⟩

/-- A cycle environment where the API request raises and the error
notification send also fails. -/
def errSendFailEnv : CycleEnv :=
  ⟨.requestException "boom", Option.none, Option.some "tgdown", 50⟩

/-- A cycle environment delivering an empty homeworks body. -/
def emptyEnv : CycleEnv :=
  ⟨.response 200 (.ok emptyBody), Option.none, Option.none, 70⟩

/- Helper lemmas shared by the claim theorems. -/

theorem get_api_answer_error_recoverable (t : Int) (http : HttpOutcome)
    (e : Exc) (h : get_api_answer t http = .error e) :
    isRecoverableClass e = true := by
  cases http with
  | requestException err =>
      simp [get_api_answer] at h
      subst h; rfl
  | response code body =>
      by_cases hc : code = 200
      · subst hc
        cases body with
        | error err => simp [get_api_answer] at h; subst h; rfl
        | ok v => simp [get_api_answer] at h
      · simp [get_api_answer, hc] at h
        subst h; rfl

theorem parseFailure_toExc_recoverable (pf : ParseFailure) :
    isRecoverableClass pf.toExc = true := by
  cases pf <;> rfl

theorem checkFailure_toExc_recoverable (cf : CheckFailure)
    (h : cf ≠ CheckFailure.emptyHomeworks) :
    isRecoverableClass cf.toExc = true := by
  cases cf <;> simp_all <;> rfl

theorem dispatchExc_rec_mem (chatId : String) (st : LoopState)
    (env : CycleEnv) (e : Exc) (hrec : isRecoverableClass e = true)
    (hmem : strExc e ∈ st.error_list) :
    dispatchExc chatId st env e =
      (.next ⟨st.timestamp, st.error_list⟩, [.logError (strExc e)]) := by
  simp [dispatchExc, hrec, add_in_error_list_and_send, hmem]

theorem dispatchExc_rec_new_ok (chatId : String) (st : LoopState)
    (env : CycleEnv) (e : Exc) (hrec : isRecoverableClass e = true)
    (hmem : strExc e ∉ st.error_list)
    (ho : env.errSendOutcome = Option.none) :
    dispatchExc chatId st env e =
      (.next ⟨st.timestamp, st.error_list ++ [strExc e]⟩,
       [.logError (strExc e), .botSend .errorNotification (strExc e),
        .logDebug (sentOkLog chatId (strExc e))]) := by
  simp [dispatchExc, hrec, add_in_error_list_and_send, hmem, ho, send_message]

theorem dispatchExc_rec_new_fail (chatId : String) (st : LoopState)
    (env : CycleEnv) (e : Exc) (err : String)
    (hrec : isRecoverableClass e = true)
    (hmem : strExc e ∉ st.error_list)
    (ho : env.errSendOutcome = Option.some err) :
    dispatchExc chatId st env e =
      (.raised (.DoesntSendMessagesException (sendFailureMsg chatId (strExc e) err)),
       [.logError (strExc e), .botSend .errorNotification (strExc e),
        .logError err]) := by
  simp [dispatchExc, hrec, add_in_error_list_and_send, hmem, ho, send_message]

theorem dispatchExc_empty (chatId : String) (st : LoopState)
    (env : CycleEnv) (e : Exc) (hrec : isRecoverableClass e = false)
    (hemp : isEmptyHomeworkClass e = true) :
    dispatchExc chatId st env e = (.next st, [.logDebug "No updates"]) := by
  simp [dispatchExc, hrec, hemp]

theorem dispatchExc_fatal (chatId : String) (st : LoopState)
    (env : CycleEnv) (e : Exc) (hrec : isRecoverableClass e = false)
    (hemp : isEmptyHomeworkClass e = false) :
    dispatchExc chatId st env e =
      (.raised (.GeneralProgramException (strFatal e)),
       [.logCritical (strFatal e)]) := by
  simp [dispatchExc, hrec, hemp]

theorem errorSends_logError (m : String) : errorSendsOfEvents [.logError m] = [] := rfl

theorem dispatch_cases (chatId : String) (st : LoopState) (env : CycleEnv)
    (e : Exc) (hrec : isRecoverableClass e = true) :
    (∃ st2 evs, dispatchExc chatId st env e = (.next st2, evs) ∧
       st2.timestamp = st.timestamp ∧
       ((st2.error_list = st.error_list ∧ errorSendsOfEvents evs = []) ∨
        (∃ m, m ∉ st.error_list ∧ st2.error_list = st.error_list ++ [m] ∧
           errorSendsOfEvents evs = [m]))) ∨
    (∃ e2 evs, dispatchExc chatId st env e = (.raised e2, evs) ∧
       ∃ m, errorSendsOfEvents evs = [m] ∧ m ∉ st.error_list) := by
  by_cases hmem : strExc e ∈ st.error_list
  · left
    exact ⟨_, _, dispatchExc_rec_mem chatId st env e hrec hmem, rfl,
      Or.inl ⟨rfl, rfl⟩⟩
  · cases ho : env.errSendOutcome with
    | none =>
        left
        exact ⟨_, _, dispatchExc_rec_new_ok chatId st env e hrec hmem ho, rfl,
          Or.inr ⟨strExc e, hmem, rfl, rfl⟩⟩
    | some err =>
        right
        exact ⟨_, _, dispatchExc_rec_new_fail chatId st env e err hrec hmem ho,
          strExc e, rfl, hmem⟩

theorem cycle_cases (chatId : String) (st : LoopState) (env : CycleEnv) :
    (cycleFullySuccessful st env = true ∧
       ∃ evs, cycle chatId st env = (.next ⟨env.now + 1, []⟩, evs) ∧
         errorSendsOfEvents evs = []) ∨
    (cycleFullySuccessful st env = false ∧
      ((∃ st2 evs, cycle chatId st env = (.next st2, evs) ∧
          st2.timestamp = st.timestamp ∧
          ((st2.error_list = st.error_list ∧ errorSendsOfEvents evs = []) ∨
           (∃ m, m ∉ st.error_list ∧ st2.error_list = st.error_list ++ [m] ∧
              errorSendsOfEvents evs = [m]))) ∨
       (∃ e evs, cycle chatId st env = (.raised e, evs) ∧
          (errorSendsOfEvents evs = [] ∨
           ∃ m, errorSendsOfEvents evs = [m] ∧ m ∉ st.error_list)))) := by
  cases hget : get_api_answer st.timestamp env.http with
  | error e =>
      have hrec := get_api_answer_error_recoverable _ _ _ hget
      have hcyc : cycle chatId st env = dispatchExc chatId st env e := by
        simp [cycle, hget]
      right
      refine ⟨by simp [cycleFullySuccessful, hget], ?_⟩
      rw [hcyc]
      rcases dispatch_cases chatId st env e hrec with
        ⟨st2, evs, h1, h2, h3⟩ | ⟨e2, evs, h1, m, h2, h3⟩
      · exact Or.inl ⟨st2, evs, h1, h2, h3⟩
      · exact Or.inr ⟨e2, evs, h1, Or.inr ⟨m, h2, h3⟩⟩
  | ok response =>
    cases hcheck : check_response response with
    | error cf =>
        have hcyc : cycle chatId st env = dispatchExc chatId st env cf.toExc := by
          simp [cycle, hget, hcheck]
        right
        refine ⟨by simp [cycleFullySuccessful, hget, hcheck], ?_⟩
        rw [hcyc]
        by_cases hemp : cf = CheckFailure.emptyHomeworks
        · subst hemp
          rw [dispatchExc_empty chatId st env
            (CheckFailure.toExc CheckFailure.emptyHomeworks) rfl rfl]
          exact Or.inl ⟨st, _, rfl, rfl, Or.inl ⟨rfl, rfl⟩⟩
        · have hrec := checkFailure_toExc_recoverable cf hemp
          rcases dispatch_cases chatId st env cf.toExc hrec with
            ⟨st2, evs, h1, h2, h3⟩ | ⟨e2, evs, h1, m, h2, h3⟩
          · exact Or.inl ⟨st2, evs, h1, h2, h3⟩
          · exact Or.inr ⟨e2, evs, h1, Or.inr ⟨m, h2, h3⟩⟩
    | ok u =>
      cases hparse : parse_status (firstHomework response) with
      | error pf =>
          have hrec := parseFailure_toExc_recoverable pf
          have hcyc : cycle chatId st env = dispatchExc chatId st env pf.toExc := by
            simp [cycle, hget, hcheck, hparse]
          right
          refine ⟨by simp [cycleFullySuccessful, hget, hcheck, hparse], ?_⟩
          rw [hcyc]
          rcases dispatch_cases chatId st env pf.toExc hrec with
            ⟨st2, evs, h1, h2, h3⟩ | ⟨e2, evs, h1, m, h2, h3⟩
          · exact Or.inl ⟨st2, evs, h1, h2, h3⟩
          · exact Or.inr ⟨e2, evs, h1, Or.inr ⟨m, h2, h3⟩⟩
      | ok message =>
        cases ho : env.sendOutcome with
        | none =>
            left
            refine ⟨by simp [cycleFullySuccessful, hget, hcheck, hparse, ho], ?_⟩
            exact ⟨[.botSend .statusChange message, .logDebug (sentOkLog chatId message)],
              by simp [cycle, hget, hcheck, hparse, send_message, ho], rfl⟩
        | some err =>
            right
            refine ⟨by simp [cycleFullySuccessful, hget, hcheck, hparse, ho], ?_⟩
            right
            refine ⟨Exc.GeneralProgramException
                (strFatal (Exc.DoesntSendMessagesException (sendFailureMsg chatId message err))),
              [.botSend .statusChange message, .logError err,
               .logCritical (strFatal (Exc.DoesntSendMessagesException (sendFailureMsg chatId message err)))],
              ?_, Or.inl rfl⟩
            rw [show cycle chatId st env =
                ((dispatchExc chatId st env (.DoesntSendMessagesException (sendFailureMsg chatId message err))).1,
                 [Event.botSend .statusChange message, Event.logError err] ++
                   (dispatchExc chatId st env (.DoesntSendMessagesException (sendFailureMsg chatId message err))).2)
              from by simp [cycle, hget, hcheck, hparse, send_message, ho]]
            rw [dispatchExc_fatal chatId st env
              (.DoesntSendMessagesException (sendFailureMsg chatId message err)) rfl rfl]
            rfl

theorem cycle_next_timestamp (chatId : String) (st : LoopState)
    (env : CycleEnv) (st2 : LoopState) (evs : List Event)
    (h : cycle chatId st env = (.next st2, evs)) :
    st2.timestamp =
      if cycleFullySuccessful st env then env.now + 1 else st.timestamp := by
  rcases cycle_cases chatId st env with ⟨hs, evs1, hc, _⟩ | ⟨hs, hrest⟩
  · rw [hs, if_pos rfl]
    rw [h] at hc
    injection hc with h1 h2
    injection h1 with h3
    rw [h3]
  · rw [hs, if_neg (by simp)]
    rcases hrest with ⟨st2x, evsx, hcx, ht, _⟩ | ⟨e, evsx, hcx, _⟩
    · rw [h] at hcx
      injection hcx with h1 h2
      injection h1 with h3
      rw [h3]; exact ht
    · rw [h] at hcx
      injection hcx with h1 h2
      exact absurd h1 (by simp)

theorem cycle_success_next (chatId : String) (st : LoopState) (env : CycleEnv)
    (h : cycleFullySuccessful st env = true) :
    ∃ evs, cycle chatId st env = (.next ⟨env.now + 1, []⟩, evs) ∧
      errorSendsOfEvents evs = [] := by
  rcases cycle_cases chatId st env with ⟨_, hx⟩ | ⟨hf, _⟩
  · exact hx
  · rw [h] at hf; exact absurd hf (by simp)

theorem trace_mono_aux (chatId : String) :
    ∀ (envs : List CycleEnv) (st : LoopState) (c : Int),
      st.timestamp ≤ c + 1 → ClockRuns c envs = true →
      Nondecreasing st.timestamp (traceTimestamps chatId st envs) := by
  intro envs
  induction envs with
  | nil =>
      intro st c _ _
      simp [traceTimestamps, Nondecreasing]
  | cons env envs ih =>
      intro st c hb hclock
      simp only [ClockRuns, Bool.and_eq_true, decide_eq_true_eq] at hclock
      obtain ⟨hle, hclock2⟩ := hclock
      cases hcyc : cycle chatId st env with
      | mk out evs =>
        cases out with
        | next st2 =>
            have htrace : traceTimestamps chatId st (env :: envs) =
                st2.timestamp :: traceTimestamps chatId st2 envs := by
              simp [traceTimestamps, hcyc]
            rw [htrace]
            have hts := cycle_next_timestamp chatId st env st2 evs hcyc
            simp only [Nondecreasing]
            constructor
            · rw [hts]; split
              · omega
              · omega
            · refine ih st2 env.now ?_ hclock2
              rw [hts]; split <;> omega
        | raised e =>
            have htrace : traceTimestamps chatId st (env :: envs) = [] := by
              simp [traceTimestamps, hcyc]
            rw [htrace]
            simp [Nondecreasing]

theorem dedup_aux (chatId : String) :
    ∀ (envs : List CycleEnv) (st : LoopState),
      NoSuccessRun chatId st envs = true →
      (traceErrorSends chatId st envs).Nodup ∧
      ∀ m ∈ traceErrorSends chatId st envs, m ∉ st.error_list := by
  intro envs
  induction envs with
  | nil =>
      intro st _
      simp [traceErrorSends]
  | cons env envs ih =>
      intro st hrun
      simp only [NoSuccessRun, Bool.and_eq_true, Bool.not_eq_true'] at hrun
      obtain ⟨hfail, hrest⟩ := hrun
      rcases cycle_cases chatId st env with ⟨hs, _⟩ | ⟨_, hcases⟩
      · rw [hfail] at hs; exact absurd hs (by simp)
      · rcases hcases with ⟨st2, evs, hcyc, _, hlist⟩ | ⟨e, evs, hcyc, hsends⟩
        · have htr : traceErrorSends chatId st (env :: envs) =
              errorSendsOfEvents evs ++ traceErrorSends chatId st2 envs := by
            simp [traceErrorSends, hcyc]
          rw [hcyc] at hrest
          obtain ⟨ihn, ihm⟩ := ih st2 hrest
          rcases hlist with ⟨hsame, hnone⟩ | ⟨m, hmnot, happ, hone⟩
          · rw [htr, hnone, List.nil_append]
            refine ⟨ihn, fun x hx => ?_⟩
            have hx2 := ihm x hx
            rw [hsame] at hx2
            exact hx2
          · rw [htr, hone, List.singleton_append]
            constructor
            · rw [List.nodup_cons]
              refine ⟨fun hmem => ?_, ihn⟩
              have hx2 := ihm m hmem
              rw [happ] at hx2
              exact hx2 (by simp)
            · intro x hx
              rcases List.mem_cons.mp hx with rfl | hx
              · exact hmnot
              · have hx2 := ihm x hx
                rw [happ] at hx2
                exact fun hx3 => hx2 (List.mem_append_left _ hx3)
        · have htr : traceErrorSends chatId st (env :: envs) =
              errorSendsOfEvents evs := by
            simp [traceErrorSends, hcyc]
          rw [htr]
          rcases hsends with hnone | ⟨m, hone, hmnot⟩
          · rw [hnone]; simp
          · rw [hone]; simp [hmnot]

/-- The status-change message produced for the homework of goodBody. -/
def approvedMsg : String :=
  "Изменился статус проверки работы \x22hw1\x22. " ++
    "Работа проверена: ревьюеру всё понравилось. Ура!"

/-- A body missing the homeworks key (but carrying no error code). -/
def noHwBody : PyVal := .dict [("current_date", .int 1)]

/-- A homework record whose homework_name is not a string. -/
def weirdKvs : List (String × PyVal) :=
  [("homework_name", .int 12345), ("status", .str "rejected")]

/-- Claim C1, counterexample: in the concrete cycle where fetch,
validation and translation succeed but Notifier.send raises a
DeliveryFailure, the Orchestrator does not catch it locally: the
catch-all re-raises it as GeneralProgramException, which escapes the
while loop and terminates the process, so the loop does not continue
with the next cycle. -/
theorem claim_c1_counterexample :
    raisedGeneralProgram (cycle "chat" ⟨0, []⟩ failSendEnv).1 = true := rfl

/-- Claim C1 (amended): DeliveryFailure is not recoverable.  When the
status-change notification send raises, the cycle ends with
GeneralProgramException escaping the loop; when the error-notification
send inside the recoverable handler raises, the cycle ends with the
DoesntSendMessagesException itself escaping the loop.  In both cases
the exception propagates past the cycle and the loop terminates. -/
theorem claim_c1 :
    (∀ (chatId : String) (st : LoopState) (env : CycleEnv) (response : PyVal)
        (message : String),
        get_api_answer st.timestamp env.http = .ok response →
        check_response response = .ok () →
        parse_status (firstHomework response) = .ok message →
        env.sendOutcome.isSome = true →
        raisedGeneralProgram (cycle chatId st env).1 = true) ∧
    (∀ (chatId : String) (st : LoopState) (env : CycleEnv) (e : Exc),
        get_api_answer st.timestamp env.http = .error e →
        strExc e ∉ st.error_list →
        env.errSendOutcome.isSome = true →
        raisedDeliveryFailure (cycle chatId st env).1 = true) := by
  constructor
  · intro chatId st env response message hget hcheck hparse hsome
    obtain ⟨err, ho⟩ := Option.isSome_iff_exists.mp hsome
    simp [cycle, hget, hcheck, hparse, send_message, ho, dispatchExc,
      isRecoverableClass, isEmptyHomeworkClass, raisedGeneralProgram]
  · intro chatId st env e hget hmem hsome
    obtain ⟨err, ho⟩ := Option.isSome_iff_exists.mp hsome
    have hrec := get_api_answer_error_recoverable _ _ _ hget
    have hd := dispatchExc_rec_new_fail chatId st env e err hrec hmem ho
    simp [cycle, hget, hd, raisedDeliveryFailure]

/-- Claim C1, witness: concrete inputs reaching both delivery-failure
sites. -/
theorem claim_c1_witness :
    raisedGeneralProgram (cycle "c" ⟨5, ["old"]⟩ failSendEnv).1 = true ∧
    raisedDeliveryFailure (cycle "c" ⟨5, ["old"]⟩ errSendFailEnv).1 = true :=
  ⟨claim_c1.1 "c" ⟨5, ["old"]⟩ failSendEnv goodBody approvedMsg rfl rfl rfl rfl,
   claim_c1.2 "c" ⟨5, ["old"]⟩ errSendFailEnv
     (.RequestFailedException "Something went wrong with Yandex API request: boom")
     rfl (by decide) rfl⟩

/-- Claim C2, counterexample: on the body with an empty homeworks list
and a current_date key, check_response does not succeed; it raises
EmptyHomeworkException, so the validator itself distinguishes empty
from non-empty homeworks. -/
theorem claim_c2_counterexample :
    check_response emptyBody = .error .emptyHomeworks ∧
    check_response emptyBody ≠ .ok () :=
  ⟨rfl, fun h => nomatch h⟩

/-- Claim C2 (amended): for every mapping body with a homeworks key
bound to a sequence, a current_date key and no error-code field, the
validator succeeds exactly when the sequence is non-empty; on an empty
sequence it fails with EmptyHomework (which the Orchestrator treats as
NoUpdate), so the empty/non-empty distinction is made by the validator
rather than the Orchestrator. -/
theorem claim_c2 (kvs : List (String × PyVal)) (hws : List PyVal)
    (hnocode : (PyVal.dict kvs).getKey? "code" = Option.none)
    (hhw : (PyVal.dict kvs).getKey? "homeworks" = Option.some (.list hws))
    (hcd : (PyVal.dict kvs).hasKey "current_date" = true) :
    (hws = [] → check_response (.dict kvs) = .error .emptyHomeworks) ∧
    (hws ≠ [] → check_response (.dict kvs) = .ok ()) := by
  have hhk : (PyVal.dict kvs).hasKey "homeworks" = true := by
    simp [PyVal.hasKey, hhw]
  constructor
  · rintro rfl
    simp [check_response, PyVal.isDict, hnocode, hhk, hcd, hhw]
  · intro hne
    cases hws with
    | nil => exact absurd rfl hne
    | cons a l => simp [check_response, PyVal.isDict, hnocode, hhk, hcd, hhw]

/-- Claim C2, witness: the non-empty and empty cases at concrete
bodies. -/
theorem claim_c2_witness :
    check_response goodBody = .ok () ∧
    check_response emptyBody = .error .emptyHomeworks := by
  constructor
  · exact (claim_c2
      [("homeworks", .list [.dict [("homework_name", .str "hw1"),
                                   ("status", .str "approved")]]),
       ("current_date", .int 1700000000)]
      [.dict [("homework_name", .str "hw1"), ("status", .str "approved")]]
      rfl rfl rfl).2 (by simp)
  · exact (claim_c2 [("homeworks", .list []), ("current_date", .int 1700000000)]
      [] rfl rfl rfl).1 rfl

/-- Claim C3, counterexample: with all three credentials present and a
network-transport failure during the probe, the process does not log
at critical severity and does not exit gracefully: the
RequestFailedException propagates uncaught out of main. -/
theorem claim_c3_counterexample :
    mainStartup ⟨Option.some "p", Option.some "t", Option.some "42"⟩
        (.requestException "boom") =
      (.propagate (.RequestFailedException
          "Something went wrong with Telegram API request: boom"), []) := rfl

/-- Claim C3 (amended): a missing credential or an unauthorized probe
result is logged at critical severity followed by a graceful exit
before the loop; but a network-transport failure during the probe
propagates out of main as an uncaught RequestFailedException, with no
critical log and no graceful exit (the loop is still never entered). -/
theorem claim_c3 :
    (∀ (env : Env) (probe : ProbeOutcome),
        (falsy env.practicumToken || falsy env.telegramToken ||
          falsy env.telegramChatId) = true →
        ∃ m, mainStartup env probe = (.exitGracefully, [.logCritical m])) ∧
    (∀ env : Env, falsy env.practicumToken = false →
        falsy env.telegramToken = false → falsy env.telegramChatId = false →
        mainStartup env (.status 401) =
          (.exitGracefully, [.logCritical "TELEGRAM_TOKEN is wrong"])) ∧
    (∀ (env : Env) (err : String), falsy env.practicumToken = false →
        falsy env.telegramToken = false → falsy env.telegramChatId = false →
        mainStartup env (.requestException err) =
          (.propagate (.RequestFailedException
              ("Something went wrong with Telegram API request: " ++ err)), [])) := by
  refine ⟨?_, ?_, ?_⟩
  · intro env probe h
    by_cases hp : falsy env.practicumToken
    · exact ⟨"PRACTICUM_TOKEN has not been found in env",
        by simp [mainStartup, check_tokens, hp]⟩
    · by_cases ht : falsy env.telegramToken
      · exact ⟨"TELEGRAM_TOKEN has not been found in env",
          by simp [mainStartup, check_tokens, hp, ht]⟩
      · have hc : falsy env.telegramChatId = true := by
          simp [hp, ht] at h; exact h
        exact ⟨"TELEGRAM_CHAT_ID has not been found in env",
          by simp [mainStartup, check_tokens, hp, ht, hc]⟩
  · intro env hp ht hc
    simp [mainStartup, check_tokens, hp, ht, hc]
  · intro env err hp ht hc
    simp [mainStartup, check_tokens, hp, ht, hc]

/-- Claim C3, witness: concrete startup runs for all three precheck
failure kinds. -/
theorem claim_c3_witness :
    (∃ m, mainStartup ⟨Option.none, Option.some "t", Option.some "42"⟩
        (.status 200) = (.exitGracefully, [.logCritical m])) ∧
    mainStartup ⟨Option.some "p", Option.some "t", Option.some "42"⟩
        (.status 401) =
      (.exitGracefully, [.logCritical "TELEGRAM_TOKEN is wrong"]) ∧
    mainStartup ⟨Option.some "p", Option.some "t", Option.some "42"⟩
        (.requestException "x") =
      (.propagate (.RequestFailedException
          "Something went wrong with Telegram API request: x"), []) :=
  ⟨claim_c3.1 ⟨Option.none, Option.some "t", Option.some "42"⟩ (.status 200) rfl,
   claim_c3.2.1 ⟨Option.some "p", Option.some "t", Option.some "42"⟩ rfl rfl rfl,
   claim_c3.2.2 ⟨Option.some "p", Option.some "t", Option.some "42"⟩ "x" rfl rfl rfl⟩

/-- Claim C4: the polling cursor never decreases across any run of
cycles whose clock readings are themselves non-decreasing and start no
earlier than the initial cursor; and within a cycle the cursor is set
to now plus one exactly on a fully successful cycle (fetch, validate,
translate, notify all succeed) and is left unchanged on every other
cycle that continues the loop. -/
theorem claim_c4 :
    (∀ (chatId : String) (st : LoopState) (envs : List CycleEnv),
        ClockRuns st.timestamp envs = true →
        Nondecreasing st.timestamp (traceTimestamps chatId st envs)) ∧
    (∀ (chatId : String) (st : LoopState) (env : CycleEnv) (st2 : LoopState)
        (evs : List Event),
        cycle chatId st env = (.next st2, evs) →
        st2.timestamp =
          if cycleFullySuccessful st env then env.now + 1 else st.timestamp) := by
  constructor
  · intro chatId st envs h
    exact trace_mono_aux chatId envs st st.timestamp (by omega) h
  · exact cycle_next_timestamp

/-- Claim C4, witness: a failing cycle followed by a successful one,
with a running clock; the cursor goes 0, 0, 101. -/
theorem claim_c4_witness :
    (ClockRuns (0 : Int) [transportEnv, succEnv] = true ∧
     Nondecreasing 0 (traceTimestamps "c" ⟨0, []⟩ [transportEnv, succEnv])) ∧
    (⟨101, []⟩ : LoopState).timestamp =
      (if cycleFullySuccessful ⟨0, []⟩ succEnv then succEnv.now + 1 else 0) :=
  ⟨⟨rfl, claim_c4.1 "c" ⟨0, []⟩ [transportEnv, succEnv] rfl⟩,
   claim_c4.2 "c" ⟨0, []⟩ succEnv ⟨101, []⟩
     [.botSend .statusChange approvedMsg, .logDebug (sentOkLog "c" approvedMsg)]
     rfl⟩

/-- Claim C5: in any run with no fully successful cycle (one failure
streak), the error-notification messages sent are pairwise distinct
and none of them was already in the registry at the start of the run;
and a fully successful cycle leaves the registry empty, so the streak
ends and the same message is notified again if it recurs. -/
theorem claim_c5 :
    (∀ (chatId : String) (st : LoopState) (envs : List CycleEnv),
        NoSuccessRun chatId st envs = true →
        (traceErrorSends chatId st envs).Nodup ∧
        ∀ m ∈ traceErrorSends chatId st envs, m ∉ st.error_list) ∧
    (∀ (chatId : String) (st : LoopState) (env : CycleEnv) (st2 : LoopState)
        (evs : List Event),
        cycle chatId st env = (.next st2, evs) →
        cycleFullySuccessful st env = true →
        st2.error_list = []) := by
  constructor
  · intro chatId st envs h
    exact dedup_aux chatId envs st h
  · intro chatId st env st2 evs h hs
    obtain ⟨evs1, hc, _⟩ := cycle_success_next chatId st env hs
    rw [h] at hc
    injection hc with h1 h2
    injection h1 with h3
    rw [h3]

/-- Claim C5, witness: two consecutive cycles failing with the same
transport error send exactly one notification; a successful cycle
leaves an empty registry. -/
theorem claim_c5_witness :
    ((traceErrorSends "c" ⟨0, []⟩ [transportEnv, transportEnv]).Nodup ∧
     ∀ m ∈ traceErrorSends "c" ⟨0, []⟩ [transportEnv, transportEnv],
       m ∉ (⟨0, []⟩ : LoopState).error_list) ∧
    (⟨101, []⟩ : LoopState).error_list = [] :=
  ⟨claim_c5.1 "c" ⟨0, []⟩ [transportEnv, transportEnv] rfl,
   claim_c5.2 "c" ⟨0, []⟩ succEnv ⟨101, []⟩
     [.botSend .statusChange approvedMsg, .logDebug (sentOkLog "c" approvedMsg)]
     rfl rfl⟩

/-- Claim C6, counterexample: the body consisting only of an error
code lacks the homeworks key, yet check_response fails through the
error-code branch (the spec RemoteError kind), not with a shape
failure. -/
theorem claim_c6_counterexample :
    PyVal.hasKey codeBody "homeworks" = false ∧
    check_response codeBody =
      .error (.remoteCode (.str "not_authenticated") codeBody) ∧
    CheckFailure.isUnexpectedShape
      (.remoteCode (.str "not_authenticated") codeBody) = false :=
  ⟨rfl, rfl, rfl⟩

/-- Claim C6 (amended): for every body carrying no error-code field
from which the homeworks key is absent, or the current_date key is
absent, or the value under homeworks is not a sequence, check_response
fails with a shape failure (the spec UnexpectedShape kind), and a
cycle receiving such a body leaves the polling cursor unchanged. -/
theorem claim_c6 (body : PyVal)
    (hnocode : body.getKey? "code" = Option.none)
    (hbad : body.hasKey "homeworks" = false ∨
            body.hasKey "current_date" = false ∨
            ∃ v, body.getKey? "homeworks" = Option.some v ∧ v.isList = false) :
    (∃ f, check_response body = .error f ∧ f.isUnexpectedShape = true) ∧
    (∀ (chatId : String) (st : LoopState) (env : CycleEnv) (st2 : LoopState)
        (evs : List Event),
        env.http = .response 200 (.ok body) →
        cycle chatId st env = (.next st2, evs) →
        st2.timestamp = st.timestamp) := by
  have h1 : ∃ f, check_response body = .error f ∧ f.isUnexpectedShape = true := by
    by_cases hdict : body.isDict = true
    · by_cases hhw : body.hasKey "homeworks" = true
      · by_cases hcd : body.hasKey "current_date" = true
        · rcases hbad with h | h | ⟨v, hv, hvl⟩
          · rw [h] at hhw; exact absurd hhw (by simp)
          · rw [h] at hcd; exact absurd hcd (by simp)
          · refine ⟨.homeworksNotList, ?_, rfl⟩
            simp only [check_response, hdict, hnocode, hhw, hcd, hv,
              Bool.not_true, Bool.false_eq_true, if_false]
            cases v <;> simp_all [PyVal.isList]
        · refine ⟨.noCurrentDate body, ?_, rfl⟩
          simp [check_response, hdict, hnocode, hhw, hcd]
      · refine ⟨.noHomeworks body, ?_, rfl⟩
        simp [check_response, hdict, hnocode, hhw]
    · exact ⟨.notDict, by simp [check_response, hdict], rfl⟩
  refine ⟨h1, ?_⟩
  intro chatId st env st2 evs hh hcyc
  obtain ⟨f, hf, _⟩ := h1
  have hget : get_api_answer st.timestamp env.http = .ok body := by
    simp [get_api_answer, hh]
  have hfs : cycleFullySuccessful st env = false := by
    simp [cycleFullySuccessful, hget, hf]
  have hts := cycle_next_timestamp chatId st env st2 evs hcyc
  rw [hts, hfs]
  simp

/-- Claim C6, witness: a body missing the homeworks key yields a shape
failure and its cycle keeps the cursor. -/
theorem claim_c6_witness :
    (∃ f, check_response noHwBody = .error f ∧ f.isUnexpectedShape = true) ∧
    (∀ (chatId : String) (st : LoopState) (env : CycleEnv) (st2 : LoopState)
        (evs : List Event),
        env.http = .response 200 (.ok noHwBody) →
        cycle chatId st env = (.next st2, evs) →
        st2.timestamp = st.timestamp) :=
  claim_c6 noHwBody rfl (Or.inl rfl)

/-- Claim C7: a cycle that receives a body with an empty homeworks
sequence (plus current_date and no error code) ends as NoUpdate: its
only event is one debug log line, no message of any kind is sent, and
the loop state (cursor and error registry) is returned unchanged. -/
theorem claim_c7 (chatId : String) (st : LoopState) (env : CycleEnv)
    (body : PyVal)
    (hh : env.http = .response 200 (.ok body))
    (hnocode : body.getKey? "code" = Option.none)
    (hhw : body.getKey? "homeworks" = Option.some (.list []))
    (hcd : body.hasKey "current_date" = true) :
    cycle chatId st env = (.next st, [.logDebug "No updates"]) := by
  have hget : get_api_answer st.timestamp env.http = .ok body := by
    simp [get_api_answer, hh]
  have hdict : body.isDict = true := by
    cases body <;> simp_all [PyVal.getKey?, PyVal.isDict]
  have hhk : body.hasKey "homeworks" = true := by
    simp [PyVal.hasKey, hhw]
  have hcheck : check_response body = .error .emptyHomeworks := by
    simp [check_response, hdict, hnocode, hhk, hcd, hhw]
  have hcyc : cycle chatId st env =
      dispatchExc chatId st env (CheckFailure.toExc CheckFailure.emptyHomeworks) := by
    simp [cycle, hget, hcheck]
  rw [hcyc, dispatchExc_empty chatId st env
    (CheckFailure.toExc CheckFailure.emptyHomeworks) rfl rfl]

/-- Claim C7, witness: the empty-homeworks cycle at a concrete state
leaves the state untouched and only logs. -/
theorem claim_c7_witness :
    cycle "c" ⟨7, ["e"]⟩ emptyEnv = (.next ⟨7, ["e"]⟩, [.logDebug "No updates"]) :=
  claim_c7 "c" ⟨7, ["e"]⟩ emptyEnv emptyBody rfl rfl rfl rfl

/-- Claim C8: notify-once idempotence.  For a message not yet in the
registry, the first call of add_in_error_list_and_send performs
exactly one error-notification send and inserts the message; a second
call with the same message on the resulting registry performs no send,
changes nothing and raises nothing, so two calls in succession make
exactly one send invocation. -/
theorem claim_c8 (chatId : String) (error : Exc) (error_list : List String)
    (o1 o2 : Option String) (h : strExc error ∉ error_list) :
    errorSendsOfEvents
        (add_in_error_list_and_send chatId error error_list o1).2.1 =
      [strExc error] ∧
    strExc error ∈ (add_in_error_list_and_send chatId error error_list o1).1 ∧
    add_in_error_list_and_send chatId error
        (add_in_error_list_and_send chatId error error_list o1).1 o2 =
      ((add_in_error_list_and_send chatId error error_list o1).1, [],
        Option.none) := by
  have h1 : (add_in_error_list_and_send chatId error error_list o1).1 =
      error_list ++ [strExc error] := by
    cases o1 <;> simp [add_in_error_list_and_send, h, send_message]
  refine ⟨?_, ?_, ?_⟩
  · cases o1 <;>
      simp [add_in_error_list_and_send, h, send_message, errorSendsOfEvents]
  · rw [h1]; simp
  · rw [h1]
    simp [add_in_error_list_and_send]

/-- Claim C8, witness: a failing first send still records the message,
and the second call does nothing. -/
theorem claim_c8_witness :
    errorSendsOfEvents
        (add_in_error_list_and_send "c" (.TypeError "msg") [] (Option.some "x")).2.1 =
      ["msg"] ∧
    "msg" ∈ (add_in_error_list_and_send "c" (.TypeError "msg") [] (Option.some "x")).1 ∧
    add_in_error_list_and_send "c" (.TypeError "msg")
        (add_in_error_list_and_send "c" (.TypeError "msg") [] (Option.some "x")).1
        Option.none =
      ((add_in_error_list_and_send "c" (.TypeError "msg") [] (Option.some "x")).1,
        [], Option.none) :=
  claim_c8 "c" (.TypeError "msg") [] (Option.some "x") Option.none (by decide)

/-- Claim C9: parse_status fails with the missing-field exception when
the record lacks homework_name or lacks status, fails with the
unknown-status exception (producing no message) when the status value
is not a key of HOMEWORK_VERDICTS, and otherwise returns the fixed
template sentence embedding the homework name and the looked-up
verdict. -/
theorem claim_c9 :
    (∀ kvs : List (String × PyVal),
        (PyVal.dict kvs).getKey? "homework_name" = Option.none →
        parse_status (.dict kvs) = .error (.noHomeworkName (.dict kvs))) ∧
    (∀ (kvs : List (String × PyVal)) (name : PyVal),
        (PyVal.dict kvs).getKey? "homework_name" = Option.some name →
        (PyVal.dict kvs).getKey? "status" = Option.none →
        parse_status (.dict kvs) = .error (.noStatus (.dict kvs))) ∧
    (∀ (kvs : List (String × PyVal)) (name status : PyVal),
        (PyVal.dict kvs).getKey? "homework_name" = Option.some name →
        (PyVal.dict kvs).getKey? "status" = Option.some status →
        verdictLookup status = Option.none →
        parse_status (.dict kvs) = .error (.unknownStatus status)) ∧
    (∀ (kvs : List (String × PyVal)) (name status : PyVal) (verdict : String),
        (PyVal.dict kvs).getKey? "homework_name" = Option.some name →
        (PyVal.dict kvs).getKey? "status" = Option.some status →
        verdictLookup status = Option.some verdict →
        parse_status (.dict kvs) =
          .ok ("Изменился статус проверки работы \x22" ++ pyStr name ++
               "\x22. " ++ verdict)) := by
  refine ⟨?_, ?_, ?_, ?_⟩
  · intro kvs hname
    simp [parse_status, hname]
  · intro kvs name hname hstatus
    simp [parse_status, hname, hstatus]
  · intro kvs name status hname hstatus hv
    simp [parse_status, hname, hstatus, hv]
  · intro kvs name status verdict hname hstatus hv
    simp [parse_status, hname, hstatus, hv]

/-- Claim C9, witness: all four branches at concrete records. -/
theorem claim_c9_witness :
    parse_status (.dict [("status", .str "approved")]) =
      .error (.noHomeworkName (.dict [("status", .str "approved")])) ∧
    parse_status (.dict [("homework_name", .str "hw")]) =
      .error (.noStatus (.dict [("homework_name", .str "hw")])) ∧
    parse_status (.dict [("homework_name", .str "hw"), ("status", .str "odd")]) =
      .error (.unknownStatus (.str "odd")) ∧
    parse_status (.dict [("homework_name", .str "hw"), ("status", .str "reviewing")]) =
      .ok ("Изменился статус проверки работы \x22hw\x22. " ++
           "Работа взята на проверку ревьюером.") :=
  ⟨claim_c9.1 [("status", .str "approved")] rfl,
   claim_c9.2.1 [("homework_name", .str "hw")] (.str "hw") rfl rfl,
   claim_c9.2.2.1 [("homework_name", .str "hw"), ("status", .str "odd")]
     (.str "hw") (.str "odd") rfl rfl rfl,
   claim_c9.2.2.2 [("homework_name", .str "hw"), ("status", .str "reviewing")]
     (.str "hw") (.str "reviewing") "Работа взята на проверку ревьюером."
     rfl rfl rfl⟩

/-- Claim C10: parse_status validates only key presence and status
membership, never value types: any record carrying both keys whose
status value is a key of HOMEWORK_VERDICTS translates successfully,
and the homework_name value is interpolated into the message via its
Python string form whatever its type. -/
theorem claim_c10 (kvs : List (String × PyVal)) (name : PyVal)
    (s verdict : String)
    (hname : (PyVal.dict kvs).getKey? "homework_name" = Option.some name)
    (hstatus : (PyVal.dict kvs).getKey? "status" = Option.some (.str s))
    (hverdict : verdictLookup (.str s) = Option.some verdict) :
    parse_status (.dict kvs) =
      .ok ("Изменился статус проверки работы \x22" ++ pyStr name ++
           "\x22. " ++ verdict) := by
  simp [parse_status, hname, hstatus, hverdict]

/-- Claim C10, witness: a record whose homework_name is the integer
12345 still translates, embedding 12345 in the message. -/
theorem claim_c10_witness :
    parse_status (.dict weirdKvs) =
      .ok ("Изменился статус проверки работы \x2212345\x22. " ++
           "Работа проверена: у ревьюера есть замечания.") := by
  have h := claim_c10 weirdKvs (.int 12345) "rejected"
    "Работа проверена: у ревьюера есть замечания." rfl rfl rfl
  rw [h]
  rfl
